import Mathlib

/-!
Verification of the schema-normalization and record-extraction core of the
`bulk_pro_06` repository (`upload/tasks.py`), shallowly embedded in Lean 4.

Modelling conventions, stated once:

* A cell of the parsed table is `Option String`.  `pandas.read_csv` /
  `read_excel` with `dtype=str` and default NA handling turn an empty or
  absent field into `NaN`; `NaN` and Python `None` are both modelled as
  `none` (they behave identically in all downstream code here:
  `pd.isna`/`pd.notnull` treat both as null).  `csvField` records this
  ingestion rule for a raw textual field.
* Python `float(...)` applied to a string is modelled as exact decimal
  parsing into an exact rational `PyQ` (ASCII digits, underscore digit
  separators, optional
  exponent, signed `inf`/`infinity`/`nan`, surrounding whitespace
  stripped), with overflow to infinity at the `2^1024` IEEE boundary.
  Every numeric constant appearing in a claim is exactly representable
  as a double, so the idealisation is faithful on all inputs the claims
  touch.
* `pd.to_datetime(x, errors='coerce')` never raises; no claim constrains
  the parsed date values, so the coerced timestamp is represented by its
  source text (`none` stays `none`, i.e. `NaT`).
* Exceptions are modelled with `Except`/`Option`; the per-row
  `try/except` of the source is the `Except Unit` layer of
  `processRowBooking`/`processRowRefund`, and the file-level
  `try/except` is the `FileOutcome` field of `TaskResult`.
-/

/-- The set of characters Python's `str.split()` (and `str.strip()`, and
`float()`'s surrounding-whitespace stripping) treats as whitespace. -/
def isPySpace (c : Char) : Bool :=
  let n := c.toNat
  n == 0x20 || n == 0x09 || n == 0x0a || n == 0x0d || n == 0x0b || n == 0x0c ||
  n == 0x1c || n == 0x1d || n == 0x1e || n == 0x1f || n == 0x85 || n == 0xa0 ||
  n == 0x1680 || (0x2000 ≤ n && n ≤ 0x200a) || n == 0x2028 || n == 0x2029 ||
  n == 0x202f || n == 0x205f || n == 0x3000

/-- `column_name.split()`: split on runs of whitespace, dropping empty parts.
The accumulator holds the current (reversed) in-progress part. -/
def pySplitAux : List Char → List Char → List (List Char)
  | [], acc => if acc.isEmpty then [] else [acc.reverse]
  | c :: cs, acc =>
    if isPySpace c then
      if acc.isEmpty then pySplitAux cs [] else acc.reverse :: pySplitAux cs []
    else pySplitAux cs (c :: acc)

/-- Python `s.split()` over the character list of `s`. -/
def pySplit (cs : List Char) : List (List Char) :=
  pySplitAux cs []

/-- Python `s.strip()`: drop leading and trailing whitespace. -/
def pyStripChars (cs : List Char) : List Char :=
  ((cs.dropWhile isPySpace).reverse.dropWhile isPySpace).reverse

/-- `clean_column_name` from `upload/tasks.py`, line for line:
`parts = column_name.split()`;
`cleaned_name = ''.join(part for part in parts if part)`;
`cleaned_name = ''.join(char for char in cleaned_name if char not in ['.', '_']).strip()`. -/
def clean_column_name (column_name : String) : String :=
  let parts := pySplit column_name.data
  let joined := (parts.filter (fun p => !p.isEmpty)).flatten
  let removed := joined.filter (fun c => !(c == '.') && !(c == '_'))
  String.mk (pyStripChars removed)

/-- The characters the spec says header cleaning keeps: everything that is
neither whitespace nor a literal `.` or `_`. -/
def keepHeaderChar (c : Char) : Bool :=
  !(isPySpace c) && !(c == '.') && !(c == '_')

/-- Header cleaning as the spec words it (spec §4.1 step 2): remove all
whitespace characters and all occurrences of `.` and `_`, preserving order
and case of the remaining characters.  Stated separately from the
source-shaped `clean_column_name` so the two can be proved equal. -/
def cleanColumnNameSpec (s : String) : String :=
  String.mk (s.data.filter keepHeaderChar)

/-- Euclid's algorithm with an explicit structural fuel argument, so that
the kernel can evaluate it (Lean's `Nat.gcd` is defined by well-founded
recursion, which `decide` cannot unfold).  The first argument of each
recursive call strictly decreases, so fuel `a + 1` always suffices. -/
def gcdFuel : Nat → Nat → Nat → Nat
  | 0, _, b => b
  | fuel + 1, a, b => if a = 0 then b else gcdFuel fuel (b % a) a

/-- `natGcd a b` computes `gcd a b` with enough fuel. -/
def natGcd (a b : Nat) : Nat :=
  gcdFuel (a + 1) a b

/-- An exact rational number in lowest terms with positive denominator,
used to idealise finite Python `float` values.  Defined from scratch
(rather than Mathlib's `ℚ`) so that every operation is structurally
recursive and hence evaluable by `decide`. -/
structure PyQ where
  num : Int
  den : Nat
deriving DecidableEq

/-- Normalise a fraction with positive denominator to lowest terms. -/
def PyQ.norm (n : Int) (d : Nat) : PyQ :=
  let g := natGcd n.natAbs d
  if g = 0 then ⟨0, 1⟩ else ⟨n / (g : Int), d / g⟩

/-- Embed a natural number. -/
def PyQ.ofNat (n : Nat) : PyQ :=
  ⟨(n : Int), 1⟩

/-- Exact addition. -/
def PyQ.add (a b : PyQ) : PyQ :=
  PyQ.norm (a.num * (b.den : Int) + b.num * (a.den : Int)) (a.den * b.den)

/-- Negation. -/
def PyQ.neg (a : PyQ) : PyQ :=
  ⟨-a.num, a.den⟩

/-- Exact division by `10 ^ k`. -/
def PyQ.divPow10 (a : PyQ) (k : Nat) : PyQ :=
  PyQ.norm a.num (a.den * 10 ^ k)

/-- Exact multiplication by `10 ^ e` for a signed exponent `e`. -/
def PyQ.mulPow10 (a : PyQ) (e : Int) : PyQ :=
  if 0 ≤ e then PyQ.norm (a.num * ((10 ^ e.toNat : Nat) : Int)) a.den
  else PyQ.norm a.num (a.den * 10 ^ (-e).toNat)

/-- Order on `PyQ` by cross-multiplication (denominators are positive). -/
def PyQ.le (a b : PyQ) : Bool :=
  decide (a.num * (b.den : Int) ≤ b.num * (a.den : Int))

/-- The value of a Python `float`, idealised: a finite value is an exact
rational; infinities and NaN are the IEEE special values that
`float("inf")` / `float("nan")` produce. -/
inductive PyFloatVal where
  | finite (q : PyQ)
  | pinf
  | ninf
  | nan
deriving DecidableEq

/-- Smallest magnitude at which a decimal literal rounds to an IEEE-754
double infinity (`2^1024`). -/
def floatOverflowBound : PyQ :=
  ⟨((((2 ^ 64 : Nat) ^ 16 : Nat)) : Int), 1⟩

/-- A maximal run of ASCII digits possibly separated by single underscores
(Python numeric-literal grammar): nonempty, starts and ends with a digit,
every underscore between two digits.  `validDigitTail` checks the part
after a leading digit. -/
def validDigitTail : List Char → Bool
  | [] => true
  | c :: cs =>
    if c = '_' then
      (match cs with | [] => false | d :: _ => d.isDigit) && validDigitTail cs
    else c.isDigit && validDigitTail cs

/-- See `validDigitTail`. -/
def validDigitRun : List Char → Bool
  | [] => false
  | c :: cs => c.isDigit && validDigitTail cs

/-- Decimal value of a digit run (underscores already removed). -/
def digitsToNat (cs : List Char) : Nat :=
  cs.foldl (fun acc c => 10 * acc + (c.toNat - 48)) 0

/-- The mantissa part of a Python float literal: `digits`, `digits.`,
`.digits`, or `digits.digits`. -/
def parseMantissa (cs : List Char) : Option PyQ :=
  match cs.findIdx? (fun c => c == '.') with
  | none =>
    if validDigitRun cs then some (PyQ.ofNat (digitsToNat (cs.filter (fun c => !(c == '_')))))
    else none
  | some i =>
    let ip := cs.take i
    let fp := cs.drop (i + 1)
    if (ip.isEmpty || validDigitRun ip) && (fp.isEmpty || validDigitRun fp) &&
        !(ip.isEmpty && fp.isEmpty) then
      let ipd := ip.filter (fun c => !(c == '_'))
      let fpd := fp.filter (fun c => !(c == '_'))
      some ((PyQ.ofNat (digitsToNat ipd)).add ((PyQ.ofNat (digitsToNat fpd)).divPow10 fpd.length))
    else none

/-- The exponent of a Python float literal: optional sign, then digits. -/
def parseExp (cs : List Char) : Option Int :=
  match cs with
  | '+' :: rest =>
    if validDigitRun rest then some ((digitsToNat (rest.filter (fun c => !(c == '_'))) : Int))
    else none
  | '-' :: rest =>
    if validDigitRun rest then some (-(digitsToNat (rest.filter (fun c => !(c == '_'))) : Int))
    else none
  | _ =>
    if validDigitRun cs then some ((digitsToNat (cs.filter (fun c => !(c == '_'))) : Int))
    else none

/-- An unsigned Python decimal float literal, possibly with exponent. -/
def parseDecimal (cs : List Char) : Option PyQ :=
  match cs.findIdx? (fun c => c == 'e' || c == 'E') with
  | none => parseMantissa cs
  | some i =>
    match parseMantissa (cs.take i), parseExp (cs.drop (i + 1)) with
    | some m, some e => some (m.mulPow10 e)
    | _, _ => none

/-- The part of `float(s)` after the optional sign: `inf`/`infinity`/`nan`
(case-insensitive) or a decimal literal, with overflow to infinity. -/
def pyFloatParseUnsigned (cs : List Char) (neg : Bool) : Option PyFloatVal :=
  let low := cs.map Char.toLower
  if low = "inf".data || low = "infinity".data then
    some (if neg then .ninf else .pinf)
  else if low = "nan".data then some .nan
  else
    match parseDecimal cs with
    | none => none
    | some m =>
      let q := if neg then m.neg else m
      if floatOverflowBound.le q then some .pinf
      else if q.le floatOverflowBound.neg then some .ninf
      else some (.finite q)

/-- Python `float(s)` on a string: strip surrounding whitespace, optional
sign, then `pyFloatParseUnsigned`.  `none` models `ValueError`. -/
def pyFloatParse (s : String) : Option PyFloatVal :=
  match pyStripChars s.data with
  | '+' :: rest => pyFloatParseUnsigned rest false
  | '-' :: rest => pyFloatParseUnsigned rest true
  | cs => pyFloatParseUnsigned cs false

/-- Truncation toward zero, Python `int(...)` applied to a finite float. -/
def ratTrunc (q : PyQ) : Int :=
  if 0 ≤ q.num then ((q.num.toNat / q.den : Nat) : Int)
  else -(((-q.num).toNat / q.den : Nat) : Int)

/-- `convert_to_int` from `upload/tasks.py`:
`if pd.isna(val) or val == '': return None` then `return int(float(val))`,
with `ValueError`/`OverflowError` (non-numeric text, infinities, NaN)
caught and turned into `None`.  Total by construction — the Python
function never lets an exception escape. -/
def convert_to_int (val : Option String) : Option Int :=
  match val with
  | none => none
  | some s =>
    if s = "" then none
    else
      match pyFloatParse s with
      | some (.finite q) => some (ratTrunc q)
      | _ => none

/-- Ingestion of one raw textual CSV/Excel field under pandas' default NA
handling with `dtype=str`: an empty field becomes `NaN` (here `none`),
anything else stays text. -/
def csvField (s : String) : Option String :=
  if s = "" then none else some s

/-- `pd.to_datetime(x, errors='coerce')` never raises; absent input gives
`NaT` (here `none`).  No claim constrains the parsed date values, so the
coerced timestamp of a present cell is represented by its source text. -/
def pd_to_datetime_coerce (v : Option String) : Option String :=
  v

/-- Python truthiness of an optional integer, as used by the emission
guard `if transaction_data['irctc_order_no'] and ...`:
`None` and `0` are falsy, every other integer is truthy. -/
def pyTruthyInt : Option Int → Bool
  | none => false
  | some n => !(n == 0)

/-- The amount coercion
`float(row.get(k)) if pd.notnull(row.get(k)) else 0.0`:
a null/absent cell yields `0.0`; a present cell is fed to `float`,
whose `ValueError` on non-numeric text is a row-level error. -/
def pyFloatOrZero (cell : Option String) : Except Unit PyFloatVal :=
  match cell with
  | none => .ok (.finite ⟨0, 1⟩)
  | some s =>
    match pyFloatParse s with
    | some v => .ok v
    | none => .error ()

/-- `row.get(key)` on a pandas row whose index is `hs`: the cell under the
first matching label, `None` (here `none`) when the label is absent.
A missing label and a `NaN` cell behave identically downstream. -/
def rowGet (hs : List String) (cells : List (Option String)) (key : String) : Option String :=
  match hs.findIdx? (fun h => h == key) with
  | some i => (cells.get? i).join
  | none => none

/-- One row of the booking record dict built by `process_uploaded_files`. -/
structure BookingTxn where
  bank_code : Nat
  transaction_date : Option String
  credited_date : Option String
  booking_amount : PyFloatVal
  irctc_order_no : Option Int
  bank_booking_ref_no : Option Int
deriving DecidableEq

/-- One row of the refund record dict built by `process_uploaded_files`. -/
structure RefundTxn where
  bank_code : Nat
  refund_date : Option String
  bank_booking_ref_no : Option Int
  bank_refund_ref_no : Option Int
  refund_amount : PyFloatVal
  debited_date : Option String
  irctc_order_no : Option Int
deriving DecidableEq

/-- Equality of modelled exception results is decidable (needed to
evaluate row outcomes on concrete inputs). -/
instance {ε α : Type} [DecidableEq ε] [DecidableEq α] : DecidableEq (Except ε α) := fun a b =>
  match a, b with
  | .error x, .error y =>
    if h : x = y then isTrue (by rw [h]) else isFalse (fun hc => h (by cases hc; rfl))
  | .error _, .ok _ => isFalse (fun hc => Except.noConfusion hc)
  | .ok _, .error _ => isFalse (fun hc => Except.noConfusion hc)
  | .ok x, .ok y =>
    if h : x = y then isTrue (by rw [h]) else isFalse (fun hc => h (by cases hc; rfl))

/-- The booking branch of the per-row `try` block: build the dict, then
apply the emission guard
`if transaction_data['irctc_order_no'] and transaction_data['bank_booking_ref_no'] is not None`.
`.error ()` models a caught row-level exception (only the amount's
`float` can raise); `.ok none` models a silently dropped row. -/
def processRowBooking (bankCode : Nat) (hs : List String) (cells : List (Option String)) :
    Except Unit (Option BookingTxn) :=
  match pyFloatOrZero (rowGet hs cells "booking_amount") with
  | .error e => .error e
  | .ok amt =>
    let td : BookingTxn :=
      { bank_code := bankCode
        transaction_date := pd_to_datetime_coerce (rowGet hs cells "transaction_date")
        credited_date := pd_to_datetime_coerce (rowGet hs cells "credited_date")
        booking_amount := amt
        irctc_order_no := convert_to_int (rowGet hs cells "irctc_order_no")
        bank_booking_ref_no := convert_to_int (rowGet hs cells "bank_booking_ref_no") }
    if pyTruthyInt td.irctc_order_no && td.bank_booking_ref_no.isSome then .ok (some td)
    else .ok none

/-- The refund branch of the per-row `try` block, with guard
`if transaction_data['irctc_order_no'] and transaction_data['bank_refund_ref_no'] is not None`. -/
def processRowRefund (bankCode : Nat) (hs : List String) (cells : List (Option String)) :
    Except Unit (Option RefundTxn) :=
  match pyFloatOrZero (rowGet hs cells "refund_amount") with
  | .error e => .error e
  | .ok amt =>
    let td : RefundTxn :=
      { bank_code := bankCode
        refund_date := pd_to_datetime_coerce (rowGet hs cells "refund_date")
        bank_booking_ref_no := convert_to_int (rowGet hs cells "bank_booking_ref_no")
        bank_refund_ref_no := convert_to_int (rowGet hs cells "bank_refund_ref_no")
        refund_amount := amt
        debited_date := pd_to_datetime_coerce (rowGet hs cells "debited_date")
        irctc_order_no := convert_to_int (rowGet hs cells "irctc_order_no") }
    if pyTruthyInt td.irctc_order_no && td.bank_refund_ref_no.isSome then .ok (some td)
    else .ok none

/-- The booking record a row contributes to `bulk_data_bookings`, if any:
erroring rows (logged and skipped) and guard-dropped rows contribute
nothing. -/
def bookingOfRow (bankCode : Nat) (hs : List String) (cells : List (Option String)) :
    Option BookingTxn :=
  match processRowBooking bankCode hs cells with
  | .ok (some b) => some b
  | _ => none

/-- The refund record a row contributes to `bulk_data_refunds`, if any. -/
def refundOfRow (bankCode : Nat) (hs : List String) (cells : List (Option String)) :
    Option RefundTxn :=
  match processRowRefund bankCode hs cells with
  | .ok (some r) => some r
  | _ => none

/-- The `for index, row in df.iterrows()` loop: rows are visited in order
and each appends its record (if any) to the list for its transaction
type; with a fixed `transaction_type` only the matching list ever grows,
so the loop is the `filterMap` of the per-row function over the rows. -/
def processTableRows (ttype : String) (bankCode : Nat) (hs : List String)
    (rows : List (List (Option String))) : List BookingTxn × List RefundTxn :=
  (if ttype = "booking" then rows.filterMap (fun r => bookingOfRow bankCode hs r) else [],
   if ttype = "refund" then rows.filterMap (fun r => refundOfRow bankCode hs r) else [])

/-- `BANK_CODE_MAPPING` from `upload/tasks.py`. -/
def BANK_CODE_MAPPING : List (String × Nat) :=
  [("hdfc", 101), ("icici", 102), ("karur_vysya", 40)]

/-- Per-(bank, type) transaction schema: required raw column labels and
the raw-label → canonical-field rename mapping. -/
structure TxnSchema where
  columns : List String
  column_mapping : List (String × String)
deriving DecidableEq

/-- The `karur_vysya`/`booking` entry of `BANK_MAPPINGS`. -/
def karurBookingSchema : TxnSchema :=
  { columns := ["TXN DATE", "IRCTC ORDER NO.", "BANK BOOKING REF.NO.", "BOOKING AMOUNT",
                "CREDITED ON"]
    column_mapping :=
      [("IRCTCORDERNO", "irctc_order_no"),
       ("BANKBOOKINGREFNO", "bank_booking_ref_no"),
       ("BOOKINGAMOUNT", "booking_amount"),
       ("TXNDATE", "transaction_date"),
       ("CREDITEDON", "credited_date")] }

/-- The `karur_vysya`/`refund` entry of `BANK_MAPPINGS`. -/
def karurRefundSchema : TxnSchema :=
  { columns := ["REFUND DATE", "IRCTC ORDER NO.", "BANK BOOKING REF.NO.", "BANK REFUND REF.NO.",
                "REFUND AMOUNT", "DEBITED ON"]
    column_mapping :=
      [("IRCTCORDERNO", "irctc_order_no"),
       ("REFUNDAMOUNT", "refund_amount"),
       ("DEBITEDON", "debited_date"),
       ("REFUNDDATE", "refund_date"),
       ("BANKBOOKINGREFNO", "bank_booking_ref_no"),
       ("BANKREFUNDREFNO", "bank_refund_ref_no")] }

/-- `BANK_MAPPINGS` from `upload/tasks.py`: only `karur_vysya` has a
schema entry (`hdfc` and `icici` appear in `BANK_CODE_MAPPING` only). -/
def BANK_MAPPINGS : List (String × List (String × TxnSchema)) :=
  [("karur_vysya", [("booking", karurBookingSchema), ("refund", karurRefundSchema)])]

/-- The rectangular table produced by `pd.read_csv`/`pd.read_excel` with
`dtype=str`: named columns and rows of textual cells (`none` = `NaN`). -/
structure Table where
  headers : List String
  rows : List (List (Option String))

/-- How one invocation of `process_uploaded_files` ended.  The `err*`
constructors are exceptions caught by the file-level handler (logged,
nothing persisted); `unknownBankReturn` is the early `return` taken when
`BANK_CODE_MAPPING.get(bank_name)` is `None`. -/
inductive FileOutcome where
  | ok
  | unknownBankReturn
  | errUnsupportedFormat
  | errMalformedInput
  | errSchemaKeyError
  | errSchemaMismatch (missing : Finset String)
deriving DecidableEq

/-- A call to the persistence collaborator
(`BookingTransaction.bulk_create_booking_transactions(...)` or
`RefundTransaction.bulk_create_refund_transactions(...)`). -/
inductive PersistEvent where
  | persistBookings (records : List BookingTxn)
  | persistRefunds (records : List RefundTxn)
deriving DecidableEq

/-- Observable result of one invocation: the two record batches, the
persistence calls made, and how the invocation ended. -/
structure TaskResult where
  bookings : List BookingTxn
  refunds : List RefundTxn
  persists : List PersistEvent
  outcome : FileOutcome
deriving DecidableEq

/-- A file-level failure: nothing extracted, nothing persisted. -/
def mkErr (e : FileOutcome) : TaskResult :=
  { bookings := [], refunds := [], persists := [], outcome := e }

/-- The body of `process_uploaded_files` after a successful parse,
step for step: clean the headers; look up
`BANK_MAPPINGS[bank_name][transaction_type]` (a `KeyError` is caught by
the file-level handler); compute the missing-column set difference and
raise `ValueError` if non-empty; clean the rename-mapping keys and rename
the columns; look up the bank code (early `return` when absent); run the
row loop; call the persistence collaborator for each non-empty batch. -/
def processParsed (df : Table) (bank_name transaction_type : String) : TaskResult :=
  let cleaned := df.headers.map clean_column_name
  match List.lookup bank_name BANK_MAPPINGS with
  | none => mkErr .errSchemaKeyError
  | some bankSchemas =>
    match List.lookup transaction_type bankSchemas with
    | none => mkErr .errSchemaKeyError
    | some schema =>
      let expected := schema.columns.map clean_column_name
      let missing := expected.toFinset \ cleaned.toFinset
      if missing = ∅ then
        let mapping := schema.column_mapping.map (fun p => (clean_column_name p.1, p.2))
        let renamed := cleaned.map (fun h => (List.lookup h mapping).getD h)
        match List.lookup bank_name BANK_CODE_MAPPING with
        | none =>
          { bookings := [], refunds := [], persists := [], outcome := .unknownBankReturn }
        | some code =>
          let pr := processTableRows transaction_type code renamed df.rows
          { bookings := pr.1
            refunds := pr.2
            persists :=
              (if pr.1 = [] then [] else [.persistBookings pr.1]) ++
              (if pr.2 = [] then [] else [.persistRefunds pr.2])
            outcome := .ok }
      else mkErr (.errSchemaMismatch missing)

/-- `process_uploaded_files(file_content, file_name, bank_name,
transaction_type, file_format)`.  The raw bytes and the reader are
abstracted into `parsed : Option Table` — `none` models a byte stream the
chosen reader fails on (file-level error); the unsupported-format check
happens before any read, as in the source. -/
def process_uploaded_files (file_format : String) (parsed : Option Table)
    (bank_name transaction_type : String) : TaskResult :=
  if file_format = "excel" ∨ file_format = "csv" then
    match parsed with
    | none => mkErr .errMalformedInput
    | some df => processParsed df bank_name transaction_type
  else mkErr .errUnsupportedFormat

/-- External world state threaded through `runTask`: what has been
persisted so far.  `process_uploaded_files` reads none of it. -/
structure World where
  store : List PersistEvent
deriving DecidableEq

/-- One scheduled execution of the task against a world: produce the
result and append the persistence calls to the store. -/
def runTask (file_format : String) (parsed : Option Table)
    (bank_name transaction_type : String) (w : World) : TaskResult × World :=
  let r := process_uploaded_files file_format parsed bank_name transaction_type
  (r, { store := w.store ++ r.persists })

theorem flatten_filter_nonempty (l : List (List Char)) :
    (l.filter (fun p => !p.isEmpty)).flatten = l.flatten := by
  induction l with
  | nil => rfl
  | cons p ps ih =>
    cases p with
    | nil => simpa using ih
    | cons c cs => simpa using ih

theorem dropWhile_of_forall_not (p : Char → Bool) (cs : List Char)
    (h : ∀ c ∈ cs, p c = false) : cs.dropWhile p = cs := by
  cases cs with
  | nil => rfl
  | cons c cs => simp [List.dropWhile_cons, h c (by simp)]

theorem pyStripChars_of_nospace (cs : List Char)
    (h : ∀ c ∈ cs, isPySpace c = false) : pyStripChars cs = cs := by
  unfold pyStripChars
  rw [dropWhile_of_forall_not _ _ h,
    dropWhile_of_forall_not _ _ (fun c hc => h c (List.mem_reverse.mp hc)),
    List.reverse_reverse]

theorem pySplitAux_flatten (cs : List Char) : ∀ acc : List Char,
    (pySplitAux cs acc).flatten = acc.reverse ++ cs.filter (fun c => !(isPySpace c)) := by
  induction cs with
  | nil =>
    intro acc
    cases acc <;> simp [pySplitAux]
  | cons c cs ih =>
    intro acc
    by_cases hc : isPySpace c
    · cases acc <;> simp [pySplitAux, hc, ih]
    · simp [pySplitAux, hc, ih (c :: acc)]

theorem clean_column_name_eq_spec (s : String) :
    clean_column_name s = cleanColumnNameSpec s := by
  show String.mk (pyStripChars ((((pySplitAux s.data []).filter
      (fun p => !p.isEmpty)).flatten).filter (fun c => !(c == '.') && !(c == '_')))) =
    String.mk (s.data.filter keepHeaderChar)
  rw [flatten_filter_nonempty, pySplitAux_flatten]
  simp only [List.reverse_nil, List.nil_append]
  rw [List.filter_filter]
  rw [pyStripChars_of_nospace]
  · congr 1
    apply List.filter_congr
    intro c _
    cases h1 : isPySpace c <;> cases h2 : (c == '.') <;> cases h3 : (c == '_') <;>
      simp [keepHeaderChar, h1, h2, h3]
  · intro c hc
    have := List.of_mem_filter hc
    simp at this
    exact this.2

/-- C5.  Header cleaning (`clean_column_name`) equals the reference
definition: remove all whitespace characters and all occurrences of the
literal characters `.` and `_`, preserving the order and case of every
remaining character (`cleanColumnNameSpec`); consequently any two header
strings agreeing after that removal clean identically, and in particular
"IRCTC ORDER NO." and "IRCTCORDERNO" both clean to "IRCTCORDERNO". -/
theorem c5_clean_column_name_reference (s t : String)
    (h : s.data.filter keepHeaderChar = t.data.filter keepHeaderChar) :
    clean_column_name s = cleanColumnNameSpec s ∧
    clean_column_name s = clean_column_name t ∧
    clean_column_name "IRCTC ORDER NO." = "IRCTCORDERNO" ∧
    clean_column_name "IRCTCORDERNO" = "IRCTCORDERNO" := by
  refine ⟨clean_column_name_eq_spec s, ?_, by decide, by decide⟩
  rw [clean_column_name_eq_spec s, clean_column_name_eq_spec t]
  unfold cleanColumnNameSpec
  rw [h]

/-- Witness for C5 at the spec's own example pair. -/
theorem c5_witness :
    ("IRCTC ORDER NO.".data.filter keepHeaderChar =
      "IRCTCORDERNO".data.filter keepHeaderChar) ∧
    clean_column_name "IRCTC ORDER NO." = cleanColumnNameSpec "IRCTC ORDER NO." ∧
    clean_column_name "IRCTC ORDER NO." = clean_column_name "IRCTCORDERNO" ∧
    clean_column_name "IRCTC ORDER NO." = "IRCTCORDERNO" ∧
    clean_column_name "IRCTCORDERNO" = "IRCTCORDERNO" :=
  ⟨by decide, c5_clean_column_name_reference "IRCTC ORDER NO." "IRCTCORDERNO" (by decide)⟩

/-- C4.  The integer coercion `convert_to_int` is total (it is a Lean
function `Option String → Option Int`; the Python original catches
`ValueError`/`OverflowError` and never raises) and tolerant: it attempts
a `float` parse followed by truncation toward zero; null, empty, or
non-numeric input yields `None`; a numeric input such as "678.0" yields
the truncated integer 678. -/
theorem c4_convert_to_int_tolerant (s u : String) (q : PyQ)
    (hnon : pyFloatParse s = none)
    (hfin : pyFloatParse u = some (.finite q)) :
    convert_to_int none = none ∧
    convert_to_int (some "") = none ∧
    convert_to_int (some s) = none ∧
    convert_to_int (some u) = some (ratTrunc q) ∧
    convert_to_int (some "678.0") = some 678 := by
  refine ⟨rfl, by decide, ?_, ?_, by decide⟩
  · unfold convert_to_int
    by_cases hs : s = ""
    · simp [hs]
    · simp [hs, hnon]
  · unfold convert_to_int
    by_cases hu : u = ""
    · subst hu
      rw [show pyFloatParse "" = none by decide] at hfin
      cases hfin
    · simp [hu, hfin]

/-- Witness for C4 at the non-numeric input "abc" and the numeric input
"678.0". -/
theorem c4_witness :
    (pyFloatParse "abc" = none ∧ pyFloatParse "678.0" = some (.finite ⟨678, 1⟩)) ∧
    (convert_to_int none = none ∧
     convert_to_int (some "") = none ∧
     convert_to_int (some "abc") = none ∧
     convert_to_int (some "678.0") = some (ratTrunc ⟨678, 1⟩) ∧
     convert_to_int (some "678.0") = some 678) :=
  ⟨⟨by decide, by decide⟩,
    c4_convert_to_int_tolerant "abc" "678.0" ⟨678, 1⟩ (by decide) (by decide)⟩

/-- C1.  For every booking row whose `booking_amount` cell is absent or
null — and an empty raw field becomes null at ingestion, `csvField "" =
none` — the amount coercion yields 0.0, so with valid (guard-passing)
order and booking-reference numbers the row is emitted with amount 0.0
rather than skipped; in particular the row `irctc_order_no="12345"`,
`bank_booking_ref_no="678.0"`, `booking_amount=""` yields the record
(order 12345, booking-ref 678, amount 0.0).  The same holds for
`refund_amount` on refund rows. -/
theorem c1_absent_amount_defaults_to_zero
    (code : Nat) (hsb : List String) (cb : List (Option String)) (o b : Int)
    (hsr : List String) (cr : List (Option String)) (o2 r : Int)
    (hba : rowGet hsb cb "booking_amount" = none)
    (hoB : convert_to_int (rowGet hsb cb "irctc_order_no") = some o) (hoB0 : o ≠ 0)
    (hrB : convert_to_int (rowGet hsb cb "bank_booking_ref_no") = some b)
    (hra : rowGet hsr cr "refund_amount" = none)
    (hoR : convert_to_int (rowGet hsr cr "irctc_order_no") = some o2) (hoR0 : o2 ≠ 0)
    (hrR : convert_to_int (rowGet hsr cr "bank_refund_ref_no") = some r) :
    processRowBooking code hsb cb = .ok (some
      { bank_code := code
        transaction_date := pd_to_datetime_coerce (rowGet hsb cb "transaction_date")
        credited_date := pd_to_datetime_coerce (rowGet hsb cb "credited_date")
        booking_amount := .finite ⟨0, 1⟩
        irctc_order_no := some o
        bank_booking_ref_no := some b }) ∧
    processRowRefund code hsr cr = .ok (some
      { bank_code := code
        refund_date := pd_to_datetime_coerce (rowGet hsr cr "refund_date")
        bank_booking_ref_no := convert_to_int (rowGet hsr cr "bank_booking_ref_no")
        bank_refund_ref_no := some r
        refund_amount := .finite ⟨0, 1⟩
        debited_date := pd_to_datetime_coerce (rowGet hsr cr "debited_date")
        irctc_order_no := some o2 }) ∧
    csvField "" = none ∧
    processTableRows "booking" 40 ["irctc_order_no", "bank_booking_ref_no", "booking_amount"]
        [[some "12345", some "678.0", csvField ""]] =
      ([⟨40, none, none, .finite ⟨0, 1⟩, some 12345, some 678⟩], []) := by
  refine ⟨?_, ?_, rfl, by decide⟩
  · simp [processRowBooking, pyFloatOrZero, pyTruthyInt, hba, hoB, hrB, hoB0]
  · simp [processRowRefund, pyFloatOrZero, pyTruthyInt, hra, hoR, hrR, hoR0]

/-- Witness for C1: a booking row with the amount column entirely absent
and a refund row with a null amount cell. -/
theorem c1_witness :
    (rowGet ["irctc_order_no", "bank_booking_ref_no"] [some "12345", some "678.0"]
        "booking_amount" = none ∧
      convert_to_int (rowGet ["irctc_order_no", "bank_booking_ref_no"]
        [some "12345", some "678.0"] "irctc_order_no") = some 12345 ∧
      convert_to_int (rowGet ["irctc_order_no", "bank_booking_ref_no"]
        [some "12345", some "678.0"] "bank_booking_ref_no") = some 678 ∧
      rowGet ["refund_amount", "irctc_order_no", "bank_refund_ref_no"]
        [none, some "9", some "8"] "refund_amount" = none ∧
      convert_to_int (rowGet ["refund_amount", "irctc_order_no", "bank_refund_ref_no"]
        [none, some "9", some "8"] "irctc_order_no") = some 9 ∧
      convert_to_int (rowGet ["refund_amount", "irctc_order_no", "bank_refund_ref_no"]
        [none, some "9", some "8"] "bank_refund_ref_no") = some 8) ∧
    (processRowBooking 40 ["irctc_order_no", "bank_booking_ref_no"]
        [some "12345", some "678.0"] =
      .ok (some { bank_code := 40, transaction_date := none, credited_date := none,
                  booking_amount := .finite ⟨0, 1⟩, irctc_order_no := some 12345,
                  bank_booking_ref_no := some 678 }) ∧
      processRowRefund 40 ["refund_amount", "irctc_order_no", "bank_refund_ref_no"]
        [none, some "9", some "8"] =
      .ok (some { bank_code := 40, refund_date := none, bank_booking_ref_no := none,
                  bank_refund_ref_no := some 8, refund_amount := .finite ⟨0, 1⟩,
                  debited_date := none, irctc_order_no := some 9 }) ∧
      csvField "" = none ∧
      processTableRows "booking" 40 ["irctc_order_no", "bank_booking_ref_no", "booking_amount"]
          [[some "12345", some "678.0", csvField ""]] =
        ([⟨40, none, none, .finite ⟨0, 1⟩, some 12345, some 678⟩], [])) :=
  ⟨⟨by decide, by decide, by decide, by decide, by decide, by decide⟩,
    c1_absent_amount_defaults_to_zero 40
      ["irctc_order_no", "bank_booking_ref_no"] [some "12345", some "678.0"] 12345 678
      ["refund_amount", "irctc_order_no", "bank_refund_ref_no"] [none, some "9", some "8"] 9 8
      (by decide) (by decide) (by decide) (by decide)
      (by decide) (by decide) (by decide) (by decide)⟩

/-- C2, counterexample.  The claim "a Canonical Record is emitted if and
only if the order number and the type-specific reference number both
coerce to non-null integers" is false: in the row below both
`irctc_order_no="0"` and `bank_booking_ref_no="1"` coerce to non-null
integers (0 and 1), yet the emission guard
`if transaction_data['irctc_order_no'] and ... is not None` tests Python
truthiness of the order number, so the integer 0 is falsy and the row is
silently dropped (`.ok none`, an empty output batch). -/
theorem c2_counterexample :
    convert_to_int (some "0") = some 0 ∧
    convert_to_int (some "1") = some 1 ∧
    rowGet ["irctc_order_no", "bank_booking_ref_no", "booking_amount"]
      [some "0", some "1", some "5.0"] "irctc_order_no" = some "0" ∧
    rowGet ["irctc_order_no", "bank_booking_ref_no", "booking_amount"]
      [some "0", some "1", some "5.0"] "bank_booking_ref_no" = some "1" ∧
    processRowBooking 40 ["irctc_order_no", "bank_booking_ref_no", "booking_amount"]
      [some "0", some "1", some "5.0"] = .ok none ∧
    processTableRows "booking" 40 ["irctc_order_no", "bank_booking_ref_no", "booking_amount"]
      [[some "0", some "1", some "5.0"]] = ([], []) := by
  decide

/-- C2, amended.  For every row whose amount coercion succeeds (does not
raise a row-level error), a Canonical Record is emitted if and only if
the order number coerces to a Python-truthy integer (non-null AND
nonzero) and the type-specific reference number coerces to non-null
(zero allowed); when the condition fails the row is silently dropped
(`.ok none` — excluded from the output batch, not an error), and all
other fields of an emitted record may be null or default. -/
theorem c2_amended_emission_guard
    (code : Nat) (hs : List String) (cells : List (Option String)) (v w : PyFloatVal)
    (hb : pyFloatOrZero (rowGet hs cells "booking_amount") = .ok v)
    (hr : pyFloatOrZero (rowGet hs cells "refund_amount") = .ok w) :
    ((∃ td, bookingOfRow code hs cells = some td) ↔
      (pyTruthyInt (convert_to_int (rowGet hs cells "irctc_order_no")) = true ∧
       convert_to_int (rowGet hs cells "bank_booking_ref_no") ≠ none)) ∧
    (bookingOfRow code hs cells = none → processRowBooking code hs cells = .ok none) ∧
    ((∃ td, refundOfRow code hs cells = some td) ↔
      (pyTruthyInt (convert_to_int (rowGet hs cells "irctc_order_no")) = true ∧
       convert_to_int (rowGet hs cells "bank_refund_ref_no") ≠ none)) ∧
    (refundOfRow code hs cells = none → processRowRefund code hs cells = .ok none) := by
  refine ⟨?_, ?_, ?_, ?_⟩
  · unfold bookingOfRow processRowBooking
    rw [hb]
    by_cases h1 : pyTruthyInt (convert_to_int (rowGet hs cells "irctc_order_no")) = true <;>
      by_cases h2 : (convert_to_int (rowGet hs cells "bank_booking_ref_no")).isSome = true <;>
        simp [h1, h2, Option.ne_none_iff_isSome]
  · unfold bookingOfRow processRowBooking
    rw [hb]
    by_cases h1 : pyTruthyInt (convert_to_int (rowGet hs cells "irctc_order_no")) = true <;>
      by_cases h2 : (convert_to_int (rowGet hs cells "bank_booking_ref_no")).isSome = true <;>
        simp [h1, h2]
  · unfold refundOfRow processRowRefund
    rw [hr]
    by_cases h1 : pyTruthyInt (convert_to_int (rowGet hs cells "irctc_order_no")) = true <;>
      by_cases h2 : (convert_to_int (rowGet hs cells "bank_refund_ref_no")).isSome = true <;>
        simp [h1, h2, Option.ne_none_iff_isSome]
  · unfold refundOfRow processRowRefund
    rw [hr]
    by_cases h1 : pyTruthyInt (convert_to_int (rowGet hs cells "irctc_order_no")) = true <;>
      by_cases h2 : (convert_to_int (rowGet hs cells "bank_refund_ref_no")).isSome = true <;>
        simp [h1, h2]

/-- Witness for the amended C2 on the counterexample row (order "0",
booking-ref "1": not emitted) — the amount coercions succeed and the
guard characterisation applies. -/
theorem c2_amended_witness :
    (pyFloatOrZero (rowGet ["irctc_order_no", "bank_booking_ref_no", "booking_amount"]
        [some "0", some "1", some "5.0"] "booking_amount") = .ok (.finite ⟨5, 1⟩) ∧
      pyFloatOrZero (rowGet ["irctc_order_no", "bank_booking_ref_no", "booking_amount"]
        [some "0", some "1", some "5.0"] "refund_amount") = .ok (.finite ⟨0, 1⟩)) ∧
    (((∃ td, bookingOfRow 40 ["irctc_order_no", "bank_booking_ref_no", "booking_amount"]
          [some "0", some "1", some "5.0"] = some td) ↔
        (pyTruthyInt (convert_to_int (rowGet
            ["irctc_order_no", "bank_booking_ref_no", "booking_amount"]
            [some "0", some "1", some "5.0"] "irctc_order_no")) = true ∧
          convert_to_int (rowGet ["irctc_order_no", "bank_booking_ref_no", "booking_amount"]
            [some "0", some "1", some "5.0"] "bank_booking_ref_no") ≠ none)) ∧
      (bookingOfRow 40 ["irctc_order_no", "bank_booking_ref_no", "booking_amount"]
          [some "0", some "1", some "5.0"] = none →
        processRowBooking 40 ["irctc_order_no", "bank_booking_ref_no", "booking_amount"]
          [some "0", some "1", some "5.0"] = .ok none) ∧
      ((∃ td, refundOfRow 40 ["irctc_order_no", "bank_booking_ref_no", "booking_amount"]
          [some "0", some "1", some "5.0"] = some td) ↔
        (pyTruthyInt (convert_to_int (rowGet
            ["irctc_order_no", "bank_booking_ref_no", "booking_amount"]
            [some "0", some "1", some "5.0"] "irctc_order_no")) = true ∧
          convert_to_int (rowGet ["irctc_order_no", "bank_booking_ref_no", "booking_amount"]
            [some "0", some "1", some "5.0"] "bank_refund_ref_no") ≠ none)) ∧
      (refundOfRow 40 ["irctc_order_no", "bank_booking_ref_no", "booking_amount"]
          [some "0", some "1", some "5.0"] = none →
        processRowRefund 40 ["irctc_order_no", "bank_booking_ref_no", "booking_amount"]
          [some "0", some "1", some "5.0"] = .ok none)) :=
  ⟨⟨by decide, by decide⟩,
    c2_amended_emission_guard 40 ["irctc_order_no", "bank_booking_ref_no", "booking_amount"]
      [some "0", some "1", some "5.0"] (.finite ⟨5, 1⟩) (.finite ⟨0, 1⟩)
      (by decide) (by decide)⟩

/-- C3.  Row processing is per-row isolated: a refund row whose
`refund_amount` cell is present but non-numeric raises a row-level error
(`float` raises `ValueError`) that is caught (the `.error ()` outcome of
the per-row `try`), contributes no record, and the rest of the table is
processed exactly as if the failing row were absent — no row failure
aborts the invocation. -/
theorem c3_row_error_isolation
    (code : Nat) (hs : List String) (cells : List (Option String)) (s : String)
    (pre post : List (List (Option String)))
    (hcell : rowGet hs cells "refund_amount" = some s)
    (hnon : pyFloatParse s = none) :
    processRowRefund code hs cells = .error () ∧
    refundOfRow code hs cells = none ∧
    processTableRows "refund" code hs (pre ++ cells :: post) =
      processTableRows "refund" code hs (pre ++ post) := by
  have herr : processRowRefund code hs cells = .error () := by
    unfold processRowRefund
    rw [hcell]
    simp [pyFloatOrZero, hnon]
  have hnone : refundOfRow code hs cells = none := by
    unfold refundOfRow
    rw [herr]
  refine ⟨herr, hnone, ?_⟩
  unfold processTableRows
  simp [List.filterMap_append, hnone]

/-- Witness for C3: `refund_amount="abc"` in the middle row; the two
sibling rows are still processed. -/
theorem c3_witness :
    (rowGet ["refund_amount", "irctc_order_no", "bank_refund_ref_no"]
        [some "abc", some "44", some "55"] "refund_amount" = some "abc" ∧
      pyFloatParse "abc" = none) ∧
    (processRowRefund 40 ["refund_amount", "irctc_order_no", "bank_refund_ref_no"]
        [some "abc", some "44", some "55"] = .error () ∧
      refundOfRow 40 ["refund_amount", "irctc_order_no", "bank_refund_ref_no"]
        [some "abc", some "44", some "55"] = none ∧
      processTableRows "refund" 40 ["refund_amount", "irctc_order_no", "bank_refund_ref_no"]
          ([[some "7.5", some "44", some "55"]] ++
            [some "abc", some "44", some "55"] :: [[none, some "66", some "77"]]) =
        processTableRows "refund" 40 ["refund_amount", "irctc_order_no", "bank_refund_ref_no"]
          ([[some "7.5", some "44", some "55"]] ++ [[none, some "66", some "77"]])) :=
  ⟨⟨by decide, by decide⟩,
    c3_row_error_isolation 40 ["refund_amount", "irctc_order_no", "bank_refund_ref_no"]
      [some "abc", some "44", some "55"] "abc"
      [[some "7.5", some "44", some "55"]] [[none, some "66", some "77"]]
      (by decide) (by decide)⟩

/-- C9.  Rows are independent: the record batches of a permuted table are
exactly the correspondingly permuted batches (each record is derived
solely from its own row by the `filterMap`), so reordering rows never
changes which records are emitted (same multiset). -/
theorem c9_rows_independent (ttype : String) (code : Nat) (hs : List String)
    (rows1 rows2 : List (List (Option String))) (h : rows1.Perm rows2) :
    ((processTableRows ttype code hs rows1).1).Perm ((processTableRows ttype code hs rows2).1) ∧
    ((processTableRows ttype code hs rows1).2).Perm ((processTableRows ttype code hs rows2).2) := by
  unfold processTableRows
  constructor <;> simp only [] <;> split <;>
    first
      | exact List.Perm.filterMap _ h
      | exact List.Perm.refl _

/-- Witness for C9: swapping the two rows of a concrete booking table
permutes the emitted batch. -/
theorem c9_witness :
    (([[some "1", some "2", none], [some "3", some "4", none]] :
        List (List (Option String))).Perm
      [[some "3", some "4", none], [some "1", some "2", none]]) ∧
    (((processTableRows "booking" 40 ["irctc_order_no", "bank_booking_ref_no", "booking_amount"]
        [[some "1", some "2", none], [some "3", some "4", none]]).1).Perm
      ((processTableRows "booking" 40 ["irctc_order_no", "bank_booking_ref_no", "booking_amount"]
        [[some "3", some "4", none], [some "1", some "2", none]]).1) ∧
     ((processTableRows "booking" 40 ["irctc_order_no", "bank_booking_ref_no", "booking_amount"]
        [[some "1", some "2", none], [some "3", some "4", none]]).2).Perm
      ((processTableRows "booking" 40 ["irctc_order_no", "bank_booking_ref_no", "booking_amount"]
        [[some "3", some "4", none], [some "1", some "2", none]]).2)) :=
  ⟨by decide,
    c9_rows_independent "booking" 40 ["irctc_order_no", "bank_booking_ref_no", "booking_amount"]
      [[some "1", some "2", none], [some "3", some "4", none]]
      [[some "3", some "4", none], [some "1", some "2", none]] (by decide)⟩

/-- C7.  Each invocation produces two record collections and the one not
matching the requested transaction type is always empty: a `booking`
invocation has an empty refund collection and never calls the refund
persistence collaborator, and a `refund` invocation has an empty booking
collection and never calls the booking persistence collaborator. -/
theorem c7_off_type_collection_empty (fmt : String) (parsed : Option Table) (bank : String) :
    ((process_uploaded_files fmt parsed bank "booking").refunds = [] ∧
      ∀ rs, PersistEvent.persistRefunds rs ∉
        (process_uploaded_files fmt parsed bank "booking").persists) ∧
    ((process_uploaded_files fmt parsed bank "refund").bookings = [] ∧
      ∀ bs, PersistEvent.persistBookings bs ∉
        (process_uploaded_files fmt parsed bank "refund").persists) := by
  unfold process_uploaded_files processParsed
  refine ⟨⟨?_, ?_⟩, ?_, ?_⟩ <;>
    · (repeat' split) <;> simp_all [mkErr, processTableRows, List.mem_append] <;>
        (repeat' split) <;> simp_all [List.mem_append]

/-- C8.  Extraction is deterministic and reads no hidden state: running
the task again after a first run (whose persistence calls changed the
world) yields a structurally identical result, and the result is
independent of the initial world altogether. -/
theorem c8_extraction_deterministic (fmt : String) (parsed : Option Table)
    (bank ttype : String) (w w' : World) :
    (runTask fmt parsed bank ttype ((runTask fmt parsed bank ttype w).2)).1 =
      (runTask fmt parsed bank ttype w).1 ∧
    (runTask fmt parsed bank ttype w).1 = (runTask fmt parsed bank ttype w').1 :=
  ⟨rfl, rfl⟩

/-- C6.  A parsed table lacking at least one required cleaned column for
the (bank, type) pair makes the invocation fail with a schema-mismatch
error carrying exactly the set difference required-cleaned minus
present-cleaned (the `ValueError` whose message joins `missing_columns`),
and no record is extracted or persisted (`mkErr` has empty batches and no
persistence calls). -/
theorem c6_schema_mismatch_names_missing (fmt : String) (df : Table) (bank ttype : String)
    (bankSchemas : List (String × TxnSchema)) (schema : TxnSchema)
    (hfmt : fmt = "excel" ∨ fmt = "csv")
    (h1 : List.lookup bank BANK_MAPPINGS = some bankSchemas)
    (h2 : List.lookup ttype bankSchemas = some schema)
    (hmiss : (schema.columns.map clean_column_name).toFinset \
      (df.headers.map clean_column_name).toFinset ≠ ∅) :
    process_uploaded_files fmt (some df) bank ttype =
      mkErr (.errSchemaMismatch ((schema.columns.map clean_column_name).toFinset \
        (df.headers.map clean_column_name).toFinset)) := by
  unfold process_uploaded_files processParsed
  rcases hfmt with h | h <;> subst h <;> simp [h1, h2, hmiss]

/-- Witness for C6: a table with only the `TXN DATE` column fails the
`karur_vysya`/`booking` schema with exactly the four other cleaned
columns missing. -/
theorem c6_witness :
    (("csv" = "excel" ∨ "csv" = "csv") ∧
      List.lookup "karur_vysya" BANK_MAPPINGS =
        some [("booking", karurBookingSchema), ("refund", karurRefundSchema)] ∧
      List.lookup "booking" [("booking", karurBookingSchema), ("refund", karurRefundSchema)] =
        some karurBookingSchema ∧
      (karurBookingSchema.columns.map clean_column_name).toFinset \
        ((["TXN DATE"] : List String).map clean_column_name).toFinset ≠ ∅) ∧
    process_uploaded_files "csv" (some ⟨["TXN DATE"], []⟩) "karur_vysya" "booking" =
      mkErr (.errSchemaMismatch ((karurBookingSchema.columns.map clean_column_name).toFinset \
        ((["TXN DATE"] : List String).map clean_column_name).toFinset)) :=
  ⟨⟨Or.inr rfl, by decide, by decide, by decide⟩,
    c6_schema_mismatch_names_missing "csv" ⟨["TXN DATE"], []⟩ "karur_vysya" "booking"
      [("booking", karurBookingSchema), ("refund", karurRefundSchema)] karurBookingSchema
      (Or.inr rfl) (by decide) (by decide) (by decide)⟩

/-- C10.  A bank present in `BANK_CODE_MAPPING` but absent from
`BANK_MAPPINGS` — as `hdfc` and `icici` are in the shipped configuration
— makes every invocation fail at the schema lookup (the `KeyError`
caught by the file-level handler), whatever the parsed table holds:
before any row is processed and before the bank-code guard, with nothing
extracted or persisted.  Conversely the explicit unknown-bank guard
(outcome `unknownBankReturn`) is unreachable for any bank without a
schema-table entry, i.e. it is reachable only for banks that do have
one. -/
theorem c10_code_table_only_banks :
    (∀ (fmt : String) (df : Table) (bank ttype : String),
      (fmt = "excel" ∨ fmt = "csv") → (bank = "hdfc" ∨ bank = "icici") →
      process_uploaded_files fmt (some df) bank ttype = mkErr .errSchemaKeyError) ∧
    (∀ (fmt : String) (parsed : Option Table) (bank ttype : String),
      List.lookup bank BANK_MAPPINGS = none →
      (process_uploaded_files fmt parsed bank ttype).outcome ≠ .unknownBankReturn) := by
  constructor
  · intro fmt df bank ttype hfmt hbank
    rcases hfmt with h | h <;> subst h <;> rcases hbank with h2 | h2 <;> subst h2 <;> rfl
  · intro fmt parsed bank ttype hnone
    unfold process_uploaded_files processParsed
    split
    · cases parsed with
      | none => simp [mkErr]
      | some df => simp [hnone, mkErr]
    · simp [mkErr]

/-- Witness for C10: `hdfc` with a well-formed CSV table fails at the
schema lookup, and `hdfc` (no schema entry) can never reach the
unknown-bank guard. -/
theorem c10_witness :
    (("csv" = "excel" ∨ "csv" = "csv") ∧ ("hdfc" = "hdfc" ∨ "hdfc" = "icici") ∧
      List.lookup "hdfc" BANK_MAPPINGS = none) ∧
    (process_uploaded_files "csv" (some ⟨["TXN DATE"], [[some "x"]]⟩) "hdfc" "booking" =
        mkErr .errSchemaKeyError ∧
      (process_uploaded_files "csv" none "hdfc" "booking").outcome ≠ .unknownBankReturn) :=
  ⟨⟨Or.inr rfl, Or.inl rfl, by decide⟩,
    c10_code_table_only_banks.1 "csv" ⟨["TXN DATE"], [[some "x"]]⟩ "hdfc" "booking"
      (Or.inr rfl) (Or.inl rfl),
    c10_code_table_only_banks.2 "csv" none "hdfc" "booking" (by decide)⟩
